/-
Verification of the NodeGuardian rule-evaluation and remediation engine
(python-version/src/nodeguardian). The Python sources are embedded shallowly:

* the on-disk cooldown directory becomes an association list from file name
  to the numeric timestamp stored in the file;
* every function that catches exceptions is modelled as a total function
  returning the value the handler returns, with the try-body made explicit
  as an `Except` computation where the control flow matters;
* Python floats are modelled as rationals (the constants involved -- 0.001,
  90.0, percentages -- are exactly representable and the claims are about
  the comparison logic, not rounding).
-/
import Mathlib

namespace NodeGuardian

/-! ## Association-list store

Models the flat cooldown directory `/tmp/nodeguardian/cooldown`: each file
name maps to the float written into it (`set_cooldown` writes
`str(time.time())`, which `is_in_cooldown` reads back with `float`). -/

/-- Look a key up in the store (file exists / file content). -/
def lookupStore : List (String × ℚ) → String → Option ℚ
  | [], _ => none
  | (k, v) :: rest, key => if key = k then some v else lookupStore rest key

/-- Overwrite (or create) the file for a key, as `open(f, 'w')` does. -/
def writeStore : List (String × ℚ) → String → ℚ → List (String × ℚ)
  | [], key, val => [(key, val)]
  | (k, v) :: rest, key, val =>
    if key = k then (key, val) :: rest else (k, v) :: writeStore rest key val

/-- `p` is an initial run of `s` (character-list level; used to model the
glob pattern `f"{rule_name}_*"`, whose `*` matches any tail). -/
def charsLeadWith : List Char → List Char → Bool
  | [], _ => true
  | _ :: _, [] => false
  | p :: ps, c :: cs => p == c && charsLeadWith ps cs

/-! ## Metrics resolver (common.py, MetricsCollector)

The external world a single node presents to the collector: the outcome of
the parameterized Prometheus query for each metric (`none` = request failed,
non-success status, or empty result vector), the node-usage (metrics-server)
endpoint, and the node object's conditions. -/

structure NodeEnv where
  /-- `config.prometheus_url` is truthy (the default config has one). -/
  promConfigured : Bool
  /-- Scalar of the Prometheus cpu-utilization query, if it succeeded. -/
  promCpu : Option ℚ
  /-- Scalar of the Prometheus memory-utilization query. -/
  promMem : Option ℚ
  /-- Scalar of the Prometheus disk-utilization query. -/
  promDisk : Option ℚ
  /-- Scalar of the Prometheus load-ratio query. -/
  promLoad : Option ℚ
  /-- The metrics-server request `GET {url}/nodes/{name}` succeeded. -/
  msOk : Bool
  /-- `data["usage"]["cpu"]`; `none` = key absent (code defaults to "0"). -/
  msCpuUsage : Option String
  /-- `data["capacity"]["cpu"]`; `none` = key absent (defaults to "1"). -/
  msCpuCapacity : Option String
  /-- `data["usage"]["memory"]`; `none` defaults to "0". -/
  msMemUsage : Option String
  /-- `data["capacity"]["memory"]`; `none` defaults to "1". -/
  msMemCapacity : Option String
  /-- `get_node_by_name` returned a node object. -/
  nodeExists : Bool
  /-- The node reports a condition `type=DiskPressure` with `status="True"`. -/
  diskPressure : Bool
deriving DecidableEq

/-- Numeric value of a digit run, most significant first. -/
def digitsToNat (l : List Char) : ℕ :=
  l.foldl (fun a c => a * 10 + (c.toNat - 48)) 0

/-- Models Python `float()` on the unsigned decimal numerals of the
platform's compact resource notation (`"1500"`, `"2"`, `"1.5"`); any other
shape raises `ValueError`, modelled as `none`.  Exponents, signs and the
special float spellings never occur in that notation and are out of scope. -/
def parseDecimalChars (l : List Char) : Option ℚ :=
  let intPart := l.takeWhile (fun c => c ≠ '.')
  let rest := l.dropWhile (fun c => c ≠ '.')
  match rest with
  | [] =>
    if intPart ≠ [] ∧ intPart.all Char.isDigit then some (digitsToNat intPart) else none
  | _ :: fracPart =>
    if fracPart.all (fun c => c ≠ '.') ∧ intPart.all Char.isDigit ∧
        fracPart.all Char.isDigit ∧ (intPart ≠ [] ∨ fracPart ≠ []) then
      some (digitsToNat intPart + digitsToNat fracPart / 10 ^ fracPart.length)
    else none

/-- `MetricsCollector._parse_cpu_value` (common.py lines 518-525):
`endswith('m')` divides by 1000, `endswith('n')` by 1000000000, otherwise
the plain value.  `value[:-1]` is `dropLast`; a one-character suffix check
is exactly a check of the last character.  `none` models the `float()`
`ValueError`, which the caller's handler turns into `0.0`. -/
def parse_cpu_chars (l : List Char) : Option ℚ :=
  match l.getLast? with
  | some 'm' => (parseDecimalChars l.dropLast).map (fun q => q / 1000)
  | some 'n' => (parseDecimalChars l.dropLast).map (fun q => q / 1000000000)
  | _ => parseDecimalChars l

def parse_cpu_value (s : String) : Option ℚ := parse_cpu_chars s.data

/-- `MetricsCollector._parse_memory_value` (common.py lines 527-538):
two-character binary suffixes `Ki`/`Mi`/`Gi`/`Ti`; `int(...)` of a
non-negative float is its floor. -/
def parse_memory_chars (l : List Char) : Option ℤ :=
  if charsLeadWith ['i', 'K'] l.reverse then
    (parseDecimalChars l.dropLast.dropLast).map (fun q => ⌊q * 1024⌋)
  else if charsLeadWith ['i', 'M'] l.reverse then
    (parseDecimalChars l.dropLast.dropLast).map (fun q => ⌊q * (1024 * 1024)⌋)
  else if charsLeadWith ['i', 'G'] l.reverse then
    (parseDecimalChars l.dropLast.dropLast).map (fun q => ⌊q * (1024 * 1024 * 1024)⌋)
  else if charsLeadWith ['i', 'T'] l.reverse then
    (parseDecimalChars l.dropLast.dropLast).map (fun q => ⌊q * (1024 * 1024 * 1024 * 1024)⌋)
  else (parseDecimalChars l).map (fun q => ⌊q⌋)

def parse_memory_value (s : String) : Option ℤ := parse_memory_chars s.data

/-- `MetricsCollector._get_cpu_utilization_from_metrics_server` (common.py
lines 470-492).  The whole body is one try-block returning `0.0` on any
exception (failed request, `float()` error); absent fields default to `"0"`
and `"1"`; a non-positive capacity yields `0.0`. -/
def get_cpu_utilization_from_metrics_server (e : NodeEnv) : ℚ :=
  if e.msOk then
    match parse_cpu_value (e.msCpuUsage.getD "0"), parse_cpu_value (e.msCpuCapacity.getD "1") with
    | some u, some c => if 0 < c then u / c * 100 else 0
    | _, _ => 0
  else 0

/-- `MetricsCollector._get_memory_utilization_from_metrics_server`
(common.py lines 494-516), same shape with byte quantities. -/
def get_memory_utilization_from_metrics_server (e : NodeEnv) : ℚ :=
  if e.msOk then
    match parse_memory_value (e.msMemUsage.getD "0"), parse_memory_value (e.msMemCapacity.getD "1") with
    | some u, some c => if 0 < c then (u : ℚ) / (c : ℚ) * 100 else 0
    | _, _ => 0
  else 0

/-- `MetricsCollector._get_cpu_utilization` (common.py lines 372-389):
Prometheus first (when configured), metrics server as fallback. -/
def get_cpu_utilization (e : NodeEnv) : ℚ :=
  match (if e.promConfigured then e.promCpu else none) with
  | some v => v
  | none => get_cpu_utilization_from_metrics_server e

/-- `MetricsCollector._get_memory_utilization` (common.py lines 391-408). -/
def get_memory_utilization (e : NodeEnv) : ℚ :=
  match (if e.promConfigured then e.promMem else none) with
  | some v => v
  | none => get_memory_utilization_from_metrics_server e

/-- `MetricsCollector._get_disk_utilization` (common.py lines 410-431):
Prometheus first; fallback inspects the node's `DiskPressure` condition and
returns `90.0` under pressure; every other path ends at `return 0.0`. -/
def get_disk_utilization (e : NodeEnv) : ℚ :=
  match (if e.promConfigured then e.promDisk else none) with
  | some v => v
  | none => if e.nodeExists && e.diskPressure then 90 else 0

/-- `MetricsCollector._get_cpu_load_ratio` (common.py lines 433-450):
Prometheus first; fallback divides the cpu-utilization estimate by 100. -/
def get_cpu_load_ratio (e : NodeEnv) : ℚ :=
  match (if e.promConfigured then e.promLoad else none) with
  | some v => v
  | none => get_cpu_utilization e / 100

/-- `MetricsCollector.get_node_metrics` (common.py lines 354-370): dispatch
on the metric key; an unknown key logs an error and returns `0.0`, and the
surrounding catch-all turns any exception into `0.0` as well (none of the
helpers can raise in this model: every one already catches internally). -/
def get_node_metrics (e : NodeEnv) (metric : String) : ℚ :=
  if metric = "cpuUtilizationPercent" then get_cpu_utilization e
  else if metric = "memoryUtilizationPercent" then get_memory_utilization e
  else if metric = "diskUtilizationPercent" then get_disk_utilization e
  else if metric = "cpuLoadRatio" then get_cpu_load_ratio e
  else 0

/-- Helper for `resolve_spec`: the spec's load-ratio inference
`cpuUtilizationPercent / 100` when the primary query fails. -/
def resolve_spec_cpu_over_100 (e : NodeEnv) : Option ℚ :=
  match (if e.promConfigured then e.promCpu else none) with
  | some v => some (v / 100)
  | none => if e.msOk then some (get_cpu_utilization_from_metrics_server e / 100) else none

/-- Written from the SPEC's words (section 4.2), for comparison with
`get_node_metrics`: `resolve(node, key) → float64 | Unavailable`, where
`Unavailable` (`none`) is returned when every resolution tier fails, and
the disk inference returns `90.0` under disk pressure and `Unavailable`
otherwise. -/
def resolve_spec (e : NodeEnv) (metric : String) : Option ℚ :=
  let primary : Option ℚ :=
    if metric = "cpuUtilizationPercent" then (if e.promConfigured then e.promCpu else none)
    else if metric = "memoryUtilizationPercent" then (if e.promConfigured then e.promMem else none)
    else if metric = "diskUtilizationPercent" then (if e.promConfigured then e.promDisk else none)
    else if metric = "cpuLoadRatio" then (if e.promConfigured then e.promLoad else none)
    else none
  match primary with
  | some v => some v
  | none =>
    if metric = "cpuUtilizationPercent" then
      if e.msOk then some (get_cpu_utilization_from_metrics_server e) else none
    else if metric = "memoryUtilizationPercent" then
      if e.msOk then some (get_memory_utilization_from_metrics_server e) else none
    else if metric = "diskUtilizationPercent" then
      if e.nodeExists && e.diskPressure then some 90 else none
    else if metric = "cpuLoadRatio" then
      (resolve_spec_cpu_over_100 e)
    else none

/-! ## Rule engine (rule_engine.py) -/

/-- `Condition` dataclass (rule_engine.py lines 12-20). -/
structure Condition where
  metric : String
  operator : String
  value : ℚ
  duration : String := "5m"
  description : String := ""
deriving DecidableEq

/-- `NodeSelector`: `nodeNames` wins when present, otherwise `matchLabels`
is turned into a label selector (rule_engine.py lines 156-170). -/
structure NodeSelector where
  nodeNames : Option (List String) := none
  matchLabels : List (String × String) := []
deriving DecidableEq

/-- The action dictionaries of a rule, as the typed variants
`_execute_action` dispatches on (rule_engine.py lines 317-332); an unknown
type tag is logged and skipped. -/
inductive Action where
  | taint (key value effect : String)
  | label (labels : List (String × String))
  | annotate (annotations : List (String × String))
  | alert (enabled : Bool) (template : String) (channels : List String)
  | evict (maxPods : ℕ) (excludeNamespaces : List String)
  | unknown (tag : String)
deriving DecidableEq

/-- `Rule` dataclass (rule_engine.py lines 23-37); `monitoring` is the dict
of duration strings (`cooldownPeriod` etc.). -/
structure Rule where
  name : String
  conditions : List Condition
  condition_logic : String := "AND"
  node_selector : NodeSelector := {}
  actions : List Action := []
  recovery_conditions : List Condition := []
  recovery_actions : List Action := []
  monitoring : List (String × String) := []
  enabled : Bool := true

/-- `dict.get(key, default)` on a string-valued dict. -/
def dictGetD : List (String × String) → String → String → String
  | [], _, d => d
  | (k, v) :: rest, key, d => if key = k then v else dictGetD rest key d

/-- `RuleEngine._parse_duration` (rule_engine.py lines 252-263): suffix
`s`/`m`/`h`/`d` scales the numeral; `none` models the `ValueError` of
`int()` on a malformed numeral (digits only; `int()` accepts no dot). -/
def parse_duration_chars (l : List Char) : Option ℤ :=
  let intOf : List Char → Option ℤ := fun ds =>
    if ds ≠ [] ∧ ds.all Char.isDigit then some (digitsToNat ds : ℤ) else none
  match l.getLast? with
  | some 's' => intOf l.dropLast
  | some 'm' => (intOf l.dropLast).map (fun n => n * 60)
  | some 'h' => (intOf l.dropLast).map (fun n => n * 3600)
  | some 'd' => (intOf l.dropLast).map (fun n => n * 86400)
  | _ => intOf l

def parse_duration (s : String) : Option ℤ := parse_duration_chars s.data

/-- The cooldown file name `f"{rule_name}_{node_name}"` used by both
`is_in_cooldown` and `set_cooldown` (rule_engine.py lines 230 and 248). -/
def cooldownKey (ruleName nodeName : String) : String :=
  ruleName ++ "_" ++ nodeName

/-- Exceptions the embedded try-blocks distinguish. -/
inductive PyErr where
  | nameError
  | valueError
deriving DecidableEq

/-- The try-block of `is_in_cooldown` (rule_engine.py lines 234-241) after
the cooldown file has been read, parameterized by what the name `rule`
resolves to in the enclosing scope.  In the source, `rule` is a FREE
variable -- the function's parameters are `rule_name` and `node_name` -- so
at line 238 Python raises `NameError` before the comparison; the
parameter `scopeRule` makes that explicit (`none` = no binding, which is
the actual situation) while keeping the intended comparison visible. -/
def is_in_cooldown_try (scopeRule : Option Rule) (lastTriggered now : ℚ) :
    Except PyErr Bool := do
  let rule ← match scopeRule with
    | some r => Except.ok r
    | none => Except.error PyErr.nameError
  let period ← match parse_duration (dictGetD rule.monitoring "cooldownPeriod" "5m") with
    | some p => Except.ok p
    | none => Except.error PyErr.valueError
  return decide (now - lastTriggered < (period : ℚ))

/-- `RuleEngine.is_in_cooldown` (rule_engine.py lines 228-244): `False`
when the cooldown file does not exist; otherwise the try-block runs with no
binding for `rule` in scope and the `except` handler turns its exception
into `False`. -/
def is_in_cooldown (s : List (String × ℚ)) (ruleName nodeName : String) (now : ℚ) : Bool :=
  match lookupStore s (cooldownKey ruleName nodeName) with
  | none => false
  | some lastTriggered =>
    match is_in_cooldown_try none lastTriggered now with
    | Except.ok b => b
    | Except.error _ => false

/-- `RuleEngine.set_cooldown` (rule_engine.py lines 246-250): write the
current time into the cooldown file. -/
def set_cooldown (s : List (String × ℚ)) (ruleName nodeName : String) (now : ℚ) :
    List (String × ℚ) :=
  writeStore s (cooldownKey ruleName nodeName) now

/-- The cooldown-cleanup half of `RuleEngine.delete_rule` (rule_engine.py
lines 150-154): remove every file matching the glob `f"{rule_name}_*"`,
i.e. every key that starts with `rule_name` followed by `_`. -/
def delete_rule_cooldowns (s : List (String × ℚ)) (ruleName : String) : List (String × ℚ) :=
  s.filter (fun kv => !(charsLeadWith (ruleName ++ "_").data kv.1.data))

/-- `RuleEngine.evaluate_condition` (rule_engine.py lines 172-194) for one
node, whose external readings are `e`.  `get_node_metrics` is total in this
model, so the catch-all only covers the (unreachable) raise paths; an
unknown operator logs an error and returns `False`. -/
def evaluate_condition (e : NodeEnv) (c : Condition) : Bool :=
  let v := get_node_metrics e c.metric
  if c.operator = "GreaterThan" then decide (v > c.value)
  else if c.operator = "LessThan" then decide (v < c.value)
  else if c.operator = "EqualTo" then decide (|v - c.value| < 1 / 1000)
  else if c.operator = "NotEqualTo" then decide (|v - c.value| ≥ 1 / 1000)
  else if c.operator = "GreaterThanOrEqual" then decide (v ≥ c.value)
  else if c.operator = "LessThanOrEqual" then decide (v ≤ c.value)
  else false

/-- `RuleEngine.evaluate_rule_conditions` (rule_engine.py lines 196-226):
an empty condition list returns `False` outright; otherwise count the
satisfied conditions and combine with `AND` (all) or the `else` branch,
which treats every other logic string as `OR` (any). -/
def evaluate_rule_conditions (env : String → NodeEnv) (r : Rule) (nodeName : String) : Bool :=
  if r.conditions.isEmpty then false
  else
    let satisfied := (r.conditions.filter (fun c => evaluate_condition (env nodeName) c)).length
    if r.condition_logic = "AND" then satisfied = r.conditions.length
    else decide (satisfied > 0)

/-! ## Cluster state and actions (common.py KubernetesClient) -/

structure Taint where
  key : String
  value : String
  effect : String
deriving DecidableEq

/-- Observable node object state (the fields the engine reads or patches). -/
structure NodeInfo where
  name : String
  labels : List (String × String) := []
  annotations : List (String × String) := []
  taints : List Taint := []
deriving DecidableEq

/-- `KubernetesClient.taint_node` (common.py lines 128-151): read the node,
initialize `spec.taints` to `[]` when unset, APPEND the new taint, patch.
There is no check for an existing taint with the same key. -/
def taint_node (node : NodeInfo) (key value effect : String) : NodeInfo :=
  { node with taints := node.taints ++ [⟨key, value, effect⟩] }

/-- `KubernetesClient.remove_taint` (common.py lines 153-170): drop every
taint whose key matches. -/
def remove_taint (node : NodeInfo) (key : String) : NodeInfo :=
  { node with taints := node.taints.filter (fun t => t.key ≠ key) }

/-- Merge-set of a string dict (`dict.update`), preserving insertion order
for existing keys. -/
def dictUpdate (base updates : List (String × String)) : List (String × String) :=
  updates.foldl (fun acc kv =>
    if acc.any (fun kv2 => kv2.1 = kv.1)
    then acc.map (fun kv2 => if kv2.1 = kv.1 then (kv2.1, kv.2) else kv2)
    else acc ++ [kv]) base

/-- `KubernetesClient.label_node` (common.py lines 172-190). -/
def label_node (node : NodeInfo) (labels : List (String × String)) : NodeInfo :=
  { node with labels := dictUpdate node.labels labels }

/-- `KubernetesClient.annotate_node` (common.py lines 212-230). -/
def annotate_node (node : NodeInfo) (annotations : List (String × String)) : NodeInfo :=
  { node with annotations := dictUpdate node.annotations annotations }

/-- One action applied to every triggered node, as `_execute_action`
dispatches it (rule_engine.py lines 317-342, 375-389).  `alert` and `evict`
mutate no node object; `unknown` is logged and skipped. -/
def apply_action (cluster : List NodeInfo) (a : Action) (nodes : List String) : List NodeInfo :=
  match a with
  | .taint k v e => cluster.map (fun n => if n.name ∈ nodes then taint_node n k v e else n)
  | .label ls => cluster.map (fun n => if n.name ∈ nodes then label_node n ls else n)
  | .annotate as => cluster.map (fun n => if n.name ∈ nodes then annotate_node n as else n)
  | .alert _ _ _ => cluster
  | .evict _ _ => cluster
  | .unknown _ => cluster

/-- `matchLabels` selection: the platform returns the nodes carrying every
listed label (the engine renders the selector as `k1=v1,k2=v2,...`). -/
def matchesLabels (labels : List (String × String)) (node : NodeInfo) : Bool :=
  labels.all (fun kv => decide ((kv.1, kv.2) ∈ node.labels))

/-- `RuleEngine.get_matching_nodes` (rule_engine.py lines 156-170):
`nodeNames` wins when present; otherwise label selection (an empty
`matchLabels` passes `label_selector=None`, matching every node). -/
def get_matching_nodes (cluster : List NodeInfo) (sel : NodeSelector) : List String :=
  match sel.nodeNames with
  | some names => names
  | none => (cluster.filter (matchesLabels sel.matchLabels)).map (fun n => n.name)

/-- `RuleEngine.evaluate_rule` (rule_engine.py lines 265-290): disabled
rules trigger nothing; a matching node is collected when it is not in
cooldown (`continue` otherwise) and its conditions hold. -/
def evaluate_rule (cluster : List NodeInfo) (env : String → NodeEnv)
    (s : List (String × ℚ)) (now : ℚ) (r : Rule) : List String :=
  if !r.enabled then []
  else
    (get_matching_nodes cluster r.node_selector).filter (fun n =>
      !is_in_cooldown s r.name n now && evaluate_rule_conditions env r n)

/-- `RuleEngine.execute_actions` (rule_engine.py lines 292-315): nothing
happens for an empty batch; otherwise every action runs over the batch
(each wrapped in its own try), then `set_cooldown` is called for every
triggered node, then the rule status is patched (no node-object effect).
Result: the cluster state and the cooldown store after the call. -/
def execute_actions (cluster : List NodeInfo) (s : List (String × ℚ)) (now : ℚ)
    (r : Rule) (triggered : List String) : List NodeInfo × List (String × ℚ) :=
  if triggered.isEmpty then (cluster, s)
  else
    let cluster1 := r.actions.foldl (fun c a => apply_action c a triggered) cluster
    let s1 := triggered.foldl (fun st n => set_cooldown st r.name n now) s
    (cluster1, s1)

/-! ## Alert manager (alert_manager.py)

The channel loop of `send_alert` (lines 199-211): the implemented channel
types are `email`, `slack` and `webhook`; anything else hits the `else`
branch (warning, skipped); each send is wrapped in its own try, so a
failure is logged and the loop continues with the next channel.  `fails`
says which channel sends raise when attempted (SMTP/HTTP errors). -/

inductive ChannelOutcome where
  | sent (channel : String)
  | failed (channel : String)
  | unknownChannel (channel : String)
deriving DecidableEq

/-- One iteration of the channel loop of `AlertManager.send_alert`. -/
def send_to_channel (fails : String → Bool) (c : String) : ChannelOutcome :=
  if c = "email" ∨ c = "slack" ∨ c = "webhook" then
    (if fails c then .failed c else .sent c)
  else .unknownChannel c

/-- The channel-selection and dispatch logic of `AlertManager.send_alert`
(alert_manager.py lines 169-211), after the template has been loaded and
rendered: an empty `channels` argument is replaced by the template's
`channels` list, then every channel is attempted independently. -/
def send_alert (fails : String → Bool) (templateChannels actionChannels : List String) :
    List ChannelOutcome :=
  let channels := if actionChannels.isEmpty then templateChannels else actionChannels
  channels.map (send_to_channel fails)

/-! ## Template rendering

`send_alert` renders subject and body with the external jinja2 engine
(alert_manager.py line 193); jinja2 is not part of this repository. -/

/-- A value of the rendering context (`_prepare_context` builds nested
dicts, lists, strings and numbers). -/
inductive CtxVal where
  | str (s : String)
  | num (q : ℚ)
  | dict (entries : List (String × String))
  | listVal (n : ℕ)
deriving DecidableEq

/-- A parsed template: literal text interleaved with dotted-path
placeholders. -/
inductive Segment where
  | lit (s : String)
  | placeholder (path : List String)
deriving DecidableEq

/-- Modelled from the spec: the renderer itself is the external jinja2
library (absent from the repository sources).  Spec section 4.7: template
placeholders are dotted paths resolved against the context; an undefined
placeholder renders as the empty string and must not abort rendering.
Context lookup, one path step at a time. -/
def lookupPath (ctx : List (String × CtxVal)) : List String → Option CtxVal
  | [] => none
  | [k] => ctx.lookup k
  | k :: k2 :: rest =>
    match ctx.lookup k with
    | some (CtxVal.dict entries) =>
      match lookupPath (entries.map (fun kv => (kv.1, CtxVal.str kv.2))) (k2 :: rest) with
      | some v => some v
      | none => none
    | _ => none

/-- Modelled from the spec: string form of a defined context value. -/
def ctxValToString : CtxVal → String
  | .str s => s
  | .num q => toString q.num
  | .dict _ => ""
  | .listVal _ => ""

/-- Modelled from the spec: rendering one segment; an undefined placeholder
renders as `""` (jinja2's default `Undefined`) instead of raising. -/
def renderSegment (ctx : List (String × CtxVal)) : Segment → String
  | .lit s => s
  | .placeholder path =>
    match lookupPath ctx path with
    | some v => ctxValToString v
    | none => ""

/-- Modelled from the spec: a full template renders segment by segment;
total by construction, so the `except` branch around `Template(...).render`
in `send_alert` (which would drop the alert) is never taken. -/
def render (ctx : List (String × CtxVal)) : List Segment → String
  | [] => ""
  | seg :: rest => renderSegment ctx seg ++ render ctx rest

/-- `AlertManager.send_alert` including the rendering step: render subject
and body, then dispatch.  In the source an exception from `render` returns
before the channel loop; the modelled renderer never raises, so dispatch
always happens. -/
def send_alert_rendered (fails : String → Bool) (ctx : List (String × CtxVal))
    (subjectT bodyT : List Segment) (templateChannels actionChannels : List String) :
    String × String × List ChannelOutcome :=
  (render ctx subjectT, render ctx bodyT, send_alert fails templateChannels actionChannels)

/-! ## Concrete fixtures

The rule, cluster and metric readings of the spec's end-to-end scenario 1
(`cpu-high`, condition `cpuUtilizationPercent GreaterThan 80`,
`cooldownPeriod: 5m`, taint action), and the degenerate environments the
claims are evaluated on. -/

def w1node : NodeInfo := { name := "w1" }

def testCluster : List NodeInfo := [w1node]

def testRule : Rule :=
  { name := "cpu-high"
    conditions := [{ metric := "cpuUtilizationPercent", operator := "GreaterThan", value := 80 }]
    condition_logic := "AND"
    node_selector := { nodeNames := some ["w1"] }
    actions := [Action.taint "k8s.io/overload" "1" "NoSchedule"]
    monitoring := [("checkInterval", "60s"), ("cooldownPeriod", "5m")]
    enabled := true }

/-- Every node reports 85 % cpu from the primary query. -/
def envHigh : String → NodeEnv := fun _ =>
  { promConfigured := true
    promCpu := some 85
    promMem := some 50
    promDisk := some 50
    promLoad := some 1
    msOk := false
    msCpuUsage := none
    msCpuCapacity := none
    msMemUsage := none
    msMemCapacity := none
    nodeExists := true
    diskPressure := false }

/-- Every resolution tier fails: the queries return nothing, the node-usage
request errors, the node object cannot be read. -/
def failEnv : NodeEnv :=
  { promConfigured := true
    promCpu := none
    promMem := none
    promDisk := none
    promLoad := none
    msOk := false
    msCpuUsage := none
    msCpuCapacity := none
    msMemUsage := none
    msMemCapacity := none
    nodeExists := false
    diskPressure := false }

/-- Primary disk query fails but the node reports DiskPressure. -/
def envDisk : NodeEnv := { failEnv with nodeExists := true, diskPressure := true }

/-- Scenario 3: the time-series endpoint fails, the node-usage endpoint
reports `cpu.usage=1500m, cpu.capacity=2`. -/
def env75 : NodeEnv := { failEnv with msOk := true, msCpuUsage := some "1500m", msCpuCapacity := some "2" }

/-- The cooldown store after `execute_actions` for `cpu-high` on `["w1"]`
at time 1000. -/
def markedStore : List (String × ℚ) := (execute_actions testCluster [] 1000 testRule ["w1"]).2

/-- A rule with no conditions and AND logic. -/
def ruleEmptyAnd : Rule := { name := "empty-and", conditions := [], condition_logic := "AND" }

/-- A rule with no conditions and OR logic. -/
def ruleEmptyOr : Rule := { name := "empty-or", conditions := [], condition_logic := "OR" }

/-- A rendering context holding only the rule name. -/
def ctx0 : List (String × CtxVal) := [("rule_name", CtxVal.str "cpu-high")]

/-! ## Helper lemmas -/

theorem lookup_write_self (s : List (String × ℚ)) (k : String) (v : ℚ) :
    lookupStore (writeStore s k v) k = some v := by
  induction s with
  | nil => simp [writeStore, lookupStore]
  | cons hd tl ih =>
    obtain ⟨k1, v1⟩ := hd
    by_cases h : k = k1
    · simp [writeStore, lookupStore, h]
    · simp [writeStore, lookupStore, h, ih]

theorem lookup_write_other (s : List (String × ℚ)) (k k' : String) (v : ℚ)
    (h : k' ≠ k) : lookupStore (writeStore s k v) k' = lookupStore s k' := by
  induction s with
  | nil => simp [writeStore, lookupStore, h]
  | cons hd tl ih =>
    obtain ⟨k1, v1⟩ := hd
    by_cases h1 : k = k1
    · subst h1
      simp [writeStore, lookupStore, h]
    · by_cases h2 : k' = k1 <;> simp [writeStore, lookupStore, h1, h2, ih]

/-- Every write of the marking fold stores the same timestamp, so an
already-recorded `now` survives the rest of the fold. -/
theorem lookup_mark_fold_preserve (l : List String) (r : String) (now : ℚ) :
    ∀ (s : List (String × ℚ)) (key : String), lookupStore s key = some now →
      lookupStore (l.foldl (fun st n => set_cooldown st r n now) s) key = some now := by
  induction l with
  | nil => intro s key h; exact h
  | cons hd tl ih =>
    intro s key h
    refine ih _ _ ?_
    by_cases hk : key = cooldownKey r hd
    · subst hk
      exact lookup_write_self s (cooldownKey r hd) now
    · show lookupStore (writeStore s (cooldownKey r hd) now) key = some now
      rw [lookup_write_other _ _ _ _ hk]
      exact h

/-- After the marking fold of `execute_actions`, every triggered node's
cooldown file holds the marking time. -/
theorem lookup_mark_fold_mem (l : List String) (r : String) (now : ℚ) :
    ∀ (s : List (String × ℚ)) (n : String), n ∈ l →
      lookupStore (l.foldl (fun st m => set_cooldown st r m now) s) (cooldownKey r n) = some now := by
  induction l with
  | nil => intro s n h; cases h
  | cons hd tl ih =>
    intro s n h
    by_cases hn : n ∈ tl
    · exact ih _ _ hn
    · have hhd : n = hd := by
        rcases List.mem_cons.mp h with h1 | h2
        · exact h1
        · exact absurd h2 hn
      subst hhd
      refine lookup_mark_fold_preserve tl r now _ _ ?_
      exact lookup_write_self s (cooldownKey r n) now

/-- The glob cleanup of `delete_rule` removes every key that starts with
`rule_name` followed by an underscore. -/
theorem lookupStore_delete_rule (s : List (String × ℚ)) (r k : String)
    (h : charsLeadWith (r ++ "_").data k.data = true) :
    lookupStore (delete_rule_cooldowns s r) k = none := by
  induction s with
  | nil => rfl
  | cons hd tl ih =>
    obtain ⟨k1, v1⟩ := hd
    show lookupStore
      (List.filter (fun kv => !(charsLeadWith (r ++ "_").data kv.1.data)) ((k1, v1) :: tl)) k = none
    rw [List.filter_cons]
    cases hp : charsLeadWith (r ++ "_").data k1.data with
    | true =>
      rw [if_neg (by decide : ¬((!true) = true))]
      exact ih
    | false =>
      rw [if_pos (by decide : (!false) = true)]
      have hne : k ≠ k1 := by
        intro heq
        rw [← heq, h] at hp
        cases hp
      show (if k = k1 then some v1
        else lookupStore (List.filter (fun kv => !(charsLeadWith (r ++ "_").data kv.1.data)) tl) k) = none
      rw [if_neg hne]
      exact ih

theorem render_append (ctx : List (String × CtxVal)) (a b : List Segment) :
    render ctx (a ++ b) = render ctx a ++ render ctx b := by
  induction a with
  | nil => simp [render]
  | cons hd tl ih => simp [render, ih, String.append_assoc]

/-! ## Claims -/

/-- C1: the cooldown check is claimed to let a rule fire iff no cooldown
entry exists or the entry is at least `cooldownPeriod` old.  In the source,
`is_in_cooldown` names the FREE variable `rule` (its parameters are
`rule_name`/`node_name`), so whenever an entry exists the try-block dies
with `NameError` and the handler answers `False`: immediately after
`set_cooldown` at time 1000, with `cooldownPeriod` 5m, the entry exists
and is 0 seconds old, yet `is_in_cooldown` still reports `false` (so
`may_fire` would be `true`); the intended computation (third conjunct, the
same try-block with a rule in scope) answers `true`.  This contradicts the
repository's own test `test_cooldown_mechanism`. -/
theorem cooldown_check_always_false_namerror :
    lookupStore (set_cooldown [] "test-rule" "test-node" 1000)
      (cooldownKey "test-rule" "test-node") = some 1000
  ∧ is_in_cooldown (set_cooldown [] "test-rule" "test-node" 1000) "test-rule" "test-node" 1000
      = false
  ∧ is_in_cooldown_try (some testRule) 1000 1000 = Except.ok true :=
  ⟨rfl, rfl, by with_unfolding_all rfl⟩

/-- C2: after `execute_actions` for `cpu-high` on `["w1"]` at time 1000 the
trigger cooldown mark with timestamp 1000 is recorded (first conjunct, as
claimed), but the rule is NOT blocked for the `cooldownPeriod` (5 minutes):
re-evaluating only 1 second later, with the node still over threshold,
returns `["w1"]` again instead of skipping it, because `is_in_cooldown`
always answers `false` (the `NameError` of C1). -/
theorem execute_actions_marks_but_rule_refires :
    lookupStore markedStore (cooldownKey "cpu-high" "w1") = some 1000
  ∧ evaluate_rule testCluster envHigh markedStore 1001 testRule = ["w1"] :=
  ⟨rfl, by with_unfolding_all rfl⟩

/-- C3: `evaluate_condition` applies `GreaterThan`/`GreaterThanOrEqual`/
`LessThan`/`LessThanOrEqual` as the plain inequalities against the resolved
metric value, and `EqualTo`/`NotEqualTo` with absolute tolerance 1/1000. -/
theorem evaluate_condition_operator_semantics (e : NodeEnv) (m d ds : String) (t : ℚ) :
    evaluate_condition e ⟨m, "GreaterThan", t, d, ds⟩ = decide (get_node_metrics e m > t)
  ∧ evaluate_condition e ⟨m, "GreaterThanOrEqual", t, d, ds⟩ = decide (get_node_metrics e m ≥ t)
  ∧ evaluate_condition e ⟨m, "LessThan", t, d, ds⟩ = decide (get_node_metrics e m < t)
  ∧ evaluate_condition e ⟨m, "LessThanOrEqual", t, d, ds⟩ = decide (get_node_metrics e m ≤ t)
  ∧ evaluate_condition e ⟨m, "EqualTo", t, d, ds⟩ = decide (|get_node_metrics e m - t| < 1 / 1000)
  ∧ evaluate_condition e ⟨m, "NotEqualTo", t, d, ds⟩
      = decide (|get_node_metrics e m - t| ≥ 1 / 1000) := by
  refine ⟨?_, ?_, ?_, ?_, ?_, ?_⟩ <;> simp [evaluate_condition]

/-- C4 counterexample: with every resolution tier failing, the resolver
does not return a distinguished `Unavailable` value (`resolve_spec`, the
spec's resolver, answers `none` there): `get_node_metrics` returns the
plain number `0.0`, and the evaluator does NOT treat the condition as
unsatisfied -- `cpuUtilizationPercent LessThan 50` comes out satisfied. -/
theorem resolver_unavailable_counterexample :
    get_node_metrics failEnv "cpuUtilizationPercent" = 0
  ∧ resolve_spec failEnv "cpuUtilizationPercent" = none
  ∧ evaluate_condition failEnv ⟨"cpuUtilizationPercent", "LessThan", 50, "5m", ""⟩ = true
  ∧ get_node_metrics failEnv "diskUtilizationPercent" = 0 :=
  ⟨by with_unfolding_all rfl, rfl, by with_unfolding_all rfl, by with_unfolding_all rfl⟩

/-- C4 amended: the resolver never raises (it is total) and when every
resolution tier fails it returns the conservative default `0.0` -- not an
`Unavailable` value -- for each metric of the closed set; for
`diskUtilizationPercent` with no primary result it returns `90.0` when the
node reports DiskPressure with status True and `0.0` otherwise. -/
theorem resolver_total_default_zero (e : NodeEnv) :
    (e.promCpu = none → e.msOk = false → get_node_metrics e "cpuUtilizationPercent" = 0)
  ∧ (e.promMem = none → e.msOk = false → get_node_metrics e "memoryUtilizationPercent" = 0)
  ∧ (e.promDisk = none → (e.nodeExists && e.diskPressure) = false →
      get_node_metrics e "diskUtilizationPercent" = 0)
  ∧ (e.promDisk = none → e.nodeExists = true → e.diskPressure = true →
      get_node_metrics e "diskUtilizationPercent" = 90)
  ∧ (e.promLoad = none → e.promCpu = none → e.msOk = false →
      get_node_metrics e "cpuLoadRatio" = 0) := by
  refine ⟨?_, ?_, ?_, ?_, ?_⟩
  · intro h1 h2
    cases hc : e.promConfigured <;>
      simp [get_node_metrics, get_cpu_utilization, get_cpu_utilization_from_metrics_server,
        h1, h2, hc]
  · intro h1 h2
    cases hc : e.promConfigured <;>
      simp [get_node_metrics, get_memory_utilization, get_memory_utilization_from_metrics_server,
        h1, h2, hc]
  · intro h1 h2
    cases hc : e.promConfigured <;>
      simp [get_node_metrics, get_disk_utilization, h1, h2, hc]
  · intro h1 h2 h3
    cases hc : e.promConfigured <;>
      simp [get_node_metrics, get_disk_utilization, h1, h2, h3, hc]
  · intro h1 h2 h3
    cases hc : e.promConfigured <;>
      simp [get_node_metrics, get_cpu_load_ratio, get_cpu_utilization,
        get_cpu_utilization_from_metrics_server, h1, h2, h3, hc]

theorem resolver_total_default_zero_witness :
    get_node_metrics failEnv "cpuUtilizationPercent" = 0
  ∧ get_node_metrics envDisk "diskUtilizationPercent" = 90 :=
  ⟨(resolver_total_default_zero failEnv).1 rfl rfl,
   (resolver_total_default_zero envDisk).2.2.2.1 rfl rfl rfl⟩

/-- C5: when the primary query yields nothing, `cpuUtilizationPercent`
comes from the node-usage endpoint as usage/capacity × 100, with the `m`
suffix dividing by 1000 and the `n` suffix by 10^9; `"1500m"` parses to
3/2, so usage `1500m` with capacity `2` yields exactly 75. -/
theorem cpu_fallback_usage_over_capacity (e : NodeEnv) (u c : String) (uq cq : ℚ)
    (hprom : (if e.promConfigured then e.promCpu else none) = none)
    (hms : e.msOk = true) (hu : e.msCpuUsage = some u) (hc : e.msCpuCapacity = some c)
    (hpu : parse_cpu_value u = some uq) (hpc : parse_cpu_value c = some cq) (hpos : 0 < cq) :
    get_node_metrics e "cpuUtilizationPercent" = uq / cq * 100
  ∧ (∀ (l : List Char) (q : ℚ), parseDecimalChars l = some q →
      parse_cpu_chars (l ++ ['m']) = some (q / 1000))
  ∧ (∀ (l : List Char) (q : ℚ), parseDecimalChars l = some q →
      parse_cpu_chars (l ++ ['n']) = some (q / 1000000000))
  ∧ parse_cpu_value "1500m" = some (3 / 2) := by
  refine ⟨?_, ?_, ?_, by with_unfolding_all rfl⟩
  · simp [get_node_metrics, get_cpu_utilization, hprom,
      get_cpu_utilization_from_metrics_server, hms, hu, hc, hpu, hpc, hpos]
  · intro l q hq
    simp [parse_cpu_chars, List.getLast?_concat, List.dropLast_concat, hq]
  · intro l q hq
    simp [parse_cpu_chars, List.getLast?_concat, List.dropLast_concat, hq]

theorem cpu_fallback_usage_over_capacity_witness :
    get_node_metrics env75 "cpuUtilizationPercent" = 75 := by
  have h := (cpu_fallback_usage_over_capacity env75 "1500m" "2" (3 / 2) 2 rfl rfl rfl rfl
    (by with_unfolding_all rfl) (by with_unfolding_all rfl) (by norm_num)).1
  rw [h]
  norm_num

/-- C6: `taint_node` is claimed idempotent (append if the key is absent,
replace if present with a different value/effect).  The source appends
unconditionally: applying the same taint twice leaves two copies on the
node (first vs second conjunct), and a same-key taint is never replaced
(third conjunct) -- unlike the sibling script implementation, which taints
with `--overwrite`. -/
theorem taint_node_appends_unconditionally :
    (taint_node (taint_node w1node "k8s.io/overload" "1" "NoSchedule")
        "k8s.io/overload" "1" "NoSchedule").taints
      = [⟨"k8s.io/overload", "1", "NoSchedule"⟩, ⟨"k8s.io/overload", "1", "NoSchedule"⟩]
  ∧ (taint_node w1node "k8s.io/overload" "1" "NoSchedule").taints
      = [⟨"k8s.io/overload", "1", "NoSchedule"⟩]
  ∧ (taint_node (NodeInfo.mk "w1" [] [] [⟨"k", "old", "NoExecute"⟩]) "k" "new" "NoSchedule").taints
      = [⟨"k", "old", "NoExecute"⟩, ⟨"k", "new", "NoSchedule"⟩] :=
  ⟨rfl, rfl, rfl⟩

/-- C7: a rule with an empty condition list never triggers, whatever the
combining logic: `evaluate_rule_conditions` returns `false` outright. -/
theorem empty_conditions_never_trigger (env : String → NodeEnv) (r : Rule) (node : String)
    (h : r.conditions = []) : evaluate_rule_conditions env r node = false := by
  simp [evaluate_rule_conditions, h]

theorem empty_conditions_never_trigger_witness :
    evaluate_rule_conditions (fun _ => failEnv) ruleEmptyAnd "n1" = false
  ∧ evaluate_rule_conditions (fun _ => failEnv) ruleEmptyOr "n1" = false :=
  ⟨empty_conditions_never_trigger _ _ _ rfl, empty_conditions_never_trigger _ _ _ rfl⟩

/-- C8 counterexample: with an empty action channel list AND an empty
template default list, `send_alert` delivers to NO channel at all -- there
is no fallback to `["log"]`; indeed `"log"` is not even a recognized
channel type in this implementation (it lands in the unknown branch). -/
theorem send_alert_no_log_fallback_counterexample :
    send_alert (fun _ => false) [] [] = []
  ∧ send_to_channel (fun _ => false) "log" = ChannelOutcome.unknownChannel "log" :=
  ⟨rfl, by decide⟩

/-- C8 amended: an empty action channel list falls back to the template's
default list; when both are empty the alert is delivered to no channel
(not to `["log"]`); a channel outside {email, slack, webhook} is logged
and skipped as unknown; and each channel's outcome depends only on that
channel, so one channel failing cannot block the others. -/
theorem send_alert_channel_behavior (f : String → Bool) (tc ac : List String) :
    (ac = [] → send_alert f tc ac = tc.map (send_to_channel f))
  ∧ (ac = [] → tc = [] → send_alert f tc ac = [])
  ∧ (∀ c, ¬(c = "email" ∨ c = "slack" ∨ c = "webhook") →
      send_to_channel f c = ChannelOutcome.unknownChannel c)
  ∧ (∀ i : ℕ, (send_alert f tc ac)[i]? =
      ((if ac.isEmpty then tc else ac)[i]?).map (send_to_channel f)) := by
  refine ⟨?_, ?_, ?_, ?_⟩
  · intro h
    subst h
    simp [send_alert]
  · intro h1 h2
    subst h1
    subst h2
    rfl
  · intro c hc
    simp [send_to_channel, hc]
  · intro i
    simp [send_alert, List.getElem?_map]

theorem send_alert_channel_behavior_witness :
    send_alert (fun c => decide (c = "email")) ["email", "webhook", "nats"] [] =
      [ChannelOutcome.failed "email", ChannelOutcome.sent "webhook",
       ChannelOutcome.unknownChannel "nats"] := by
  have h := (send_alert_channel_behavior (fun c => decide (c = "email"))
    ["email", "webhook", "nats"] []).1 rfl
  rw [h]
  decide

/-- C9 (renderer modelled from the spec -- jinja2 is external to the
repository): rendering is total, a placeholder whose path is undefined in
the context contributes the empty string instead of raising, and the alert
is still dispatched to its channels (the outcome list of
`send_alert_rendered` is exactly that of `send_alert`). -/
theorem render_undefined_placeholder_empty (fails : String → Bool)
    (ctx : List (String × CtxVal)) (pre post bodyT : List Segment) (p : List String)
    (tc ac : List String) (h : lookupPath ctx p = none) :
    render ctx (pre ++ Segment.placeholder p :: post) = render ctx pre ++ render ctx post
  ∧ (send_alert_rendered fails ctx (pre ++ Segment.placeholder p :: post) bodyT tc ac).2.2 =
      send_alert fails tc ac := by
  constructor
  · rw [render_append]
    simp [render, renderSegment, h]
  · rfl

theorem render_undefined_placeholder_empty_witness :
    render ctx0 ([Segment.lit "A"] ++ Segment.placeholder ["missing"] ::
        [Segment.placeholder ["rule_name"]]) =
      render ctx0 [Segment.lit "A"] ++ render ctx0 [Segment.placeholder ["rule_name"]] :=
  (render_undefined_placeholder_empty (fun _ => false) ctx0 [Segment.lit "A"]
    [Segment.placeholder ["rule_name"]] [] ["missing"] [] [] rfl).1

/-- C10: cooldown state is keyed by the bare concatenation
`rule_name ++ "_" ++ node_name`, so distinct (rule, node) pairs with equal
concatenations alias the same entry -- `("a", "b_c")` and `("a_b", "c")`
share the file `a_b_c`, a `set_cooldown` for one is observed by
`is_in_cooldown` for the other -- and `delete_rule r` removes every entry
whose key starts with `r ++ "_"`, including entries of the different rule
`a_b` when deleting rule `a`. -/
theorem cooldown_key_aliasing :
    cooldownKey "a" "b_c" = cooldownKey "a_b" "c"
  ∧ (∀ (s : List (String × ℚ)) (t now : ℚ),
      is_in_cooldown (set_cooldown s "a" "b_c" t) "a_b" "c" now
        = is_in_cooldown (set_cooldown s "a" "b_c" t) "a" "b_c" now)
  ∧ (∀ (s : List (String × ℚ)) (t : ℚ),
      lookupStore (set_cooldown s "a" "b_c" t) (cooldownKey "a_b" "c") = some t)
  ∧ (∀ (s : List (String × ℚ)) (r k : String),
      charsLeadWith (r ++ "_").data k.data = true →
      lookupStore (delete_rule_cooldowns s r) k = none)
  ∧ (∀ (s : List (String × ℚ)) (t : ℚ),
      lookupStore (delete_rule_cooldowns (set_cooldown s "a_b" "c" t) "a")
        (cooldownKey "a_b" "c") = none) := by
  refine ⟨by decide, fun s t now => rfl, fun s t => ?_, lookupStore_delete_rule, fun s t => ?_⟩
  · show lookupStore (writeStore s (cooldownKey "a" "b_c") t) (cooldownKey "a_b" "c") = some t
    have hk : cooldownKey "a_b" "c" = cooldownKey "a" "b_c" := by decide
    rw [hk]
    exact lookup_write_self s (cooldownKey "a" "b_c") t
  · exact lookupStore_delete_rule _ "a" _ (by decide)

theorem cooldown_key_aliasing_witness :
    lookupStore (delete_rule_cooldowns [("a_b_c", (5 : ℚ))] "a") "a_b_c" = none :=
  cooldown_key_aliasing.2.2.2.1 [("a_b_c", (5 : ℚ))] "a" "a_b_c" (by decide)

end NodeGuardian
